import Mathlib

/-!
# Book catalogue: query evaluation and paging (`src/scripts.js`)

A shallow embedding of the data-selection logic of `scripts.js`:

* `applySearchFilters` (lines 182-193), the three-field filter over `books`;
* the module state `page` / `matches` (lines 5-6) together with the part of the
  DOM the listeners write to, and the listeners themselves: search submission
  (lines 224-242), "show more" (lines 245-252), item click (lines 255-271);
* `updateShowMoreButton` (lines 158-169), `createBookPreview` (lines 118-126),
  `createBookPreviews` (lines 108-115).

Modelling conventions.

* A JavaScript string is a Lean `String` (a sequence of Unicode scalar values).
  For well-formed UTF-16 text, substring search on code units and on scalar
  values agree, so `includes` is list infix on `String.data`.
* `books`, `authors`, `BOOKS_PER_PAGE` are imported from `data.js`, whose
  contents are not fixed here: they are parameters everywhere.
* Theme switching, `createOptions` and the open flags of the search and
  settings overlays carry no logic and are left out.
* `String.prototype.toLowerCase` depends on the Unicode case tables and is a
  parameter `toLowerCase : String → String`; where a concrete value is needed
  the only assumption made is that it lowers `A`-`Z` on ASCII text.
* `String.prototype.trim`, `String.prototype.includes`, `Array.prototype.slice`,
  `Array.prototype.filter`, `Array.prototype.find`, `Array.prototype.includes`
  are embedded as executable functions following ECMA-262.
* Numbers: `page`, lengths and `BOOKS_PER_PAGE` are naturals, `remainingBooks`
  is an integer (it can be negative). The source computes in IEEE doubles,
  which are exact on integers below `2^53`.
-/

namespace Scripts

/-! ## JavaScript built-ins used by the source -/

/-- ECMA-262 `WhiteSpace` and `LineTerminator` code points: the characters
`String.prototype.trim` strips. -/
def isWhiteSpace (c : Char) : Bool :=
  let n := c.toNat
  n == 0x09 || n == 0x0A || n == 0x0B || n == 0x0C || n == 0x0D || n == 0x20 ||
  n == 0xA0 || n == 0x1680 || (0x2000 ≤ n && n ≤ 0x200A) || n == 0x2028 ||
  n == 0x2029 || n == 0x202F || n == 0x205F || n == 0x3000 || n == 0xFEFF

/-- `String.prototype.trim` on the character list: strip white space from
both ends. -/
def trimChars (cs : List Char) : List Char :=
  ((cs.dropWhile isWhiteSpace).reverse.dropWhile isWhiteSpace).reverse

/-- `s.trim()`. -/
def trim (s : String) : String := ⟨trimChars s.data⟩

/-- Substring search on character lists: does `t` occur in `s` at some
position? The empty `t` occurs in every `s`. -/
def includesChars : List Char → List Char → Bool
  | [], t => t.isEmpty
  | c :: cs, t => t.isPrefixOf (c :: cs) || includesChars cs t

/-- `s.includes(t)` of `String.prototype.includes` (search from position 0). -/
def includes (s t : String) : Bool := includesChars s.data t.data

/-- `xs.slice(start, end)` of `Array.prototype.slice` for non-negative integer
arguments: both bounds are clamped to the length, and the result is empty when
the clamped start is not below the clamped end. -/
def slice {α : Type} (xs : List α) (start stop : Nat) : List α :=
  let k := min start xs.length
  let final := min stop xs.length
  (xs.drop k).take (final - k)

/-- The values a property read `table[key]` of the source can produce:
`undefined`, a name stored in the table, or a function or object found on the
prototype chain. The source only ever converts the value to a string, so a
function or object is represented by the text `ToString` gives for it (that
text is implementation-defined for built-in functions). -/
inductive JSValue where
  | undefined : JSValue
  | string (s : String) : JSValue
  | object (text : String) : JSValue
  deriving DecidableEq, Repr

/-- Abstract operation `ToString` on those values, as applied by `setAttribute`
and by template literals. -/
def JSValue.ToString : JSValue → String
  | .undefined => "undefined"
  | .string s => s
  | .object text => text

/-- An id-to-name object of `data.js` (`authors`, `genres`) as a property read
sees it: its own properties (id and name), and the properties it inherits
through its prototype chain (property name and the text of the value). For an
object literal the inherited properties are those of `Object.prototype`, such
as `constructor`, `toString` and `__proto__`. -/
structure Table where
  own : List (String × String)
  inherited : List (String × String)
  deriving DecidableEq, Repr

/-- Property read `table[key]` (ordinary `[[Get]]`): the value of the own
property `key` when there is one, otherwise the value of the inherited property
`key` when there is one, otherwise `undefined`. No error is thrown. -/
def Table.get (table : Table) (key : String) : JSValue :=
  match table.own.lookup key with
  | some name => .string name
  | none =>
    match table.inherited.lookup key with
    | some text => .object text
    | none => .undefined

/-! ## Data model -/

/-- A record of `books`, with the fields the source reads. -/
structure Book where
  id : String
  title : String
  author : String
  genres : List String
  image : String
  description : String
  published : String
  deriving DecidableEq, Repr

/-- The object `Object.fromEntries(formData)` of the search form. -/
structure Filters where
  title : String
  author : String
  genre : String
  deriving DecidableEq, Repr

/-! ## `applySearchFilters` (lines 182-193) -/

/-- The `titleMatch` constant of the filter callback. -/
def titleMatch (toLowerCase : String → String) (filters : Filters) (book : Book) : Bool :=
  trim filters.title == "" ||
    includes (toLowerCase book.title) (toLowerCase filters.title)

/-- The `authorMatch` constant of the filter callback. -/
def authorMatch (filters : Filters) (book : Book) : Bool :=
  filters.author == "any" || book.author == filters.author

/-- The `genreMatch` constant of the filter callback. -/
def genreMatch (filters : Filters) (book : Book) : Bool :=
  filters.genre == "any" || book.genres.contains filters.genre

/-- `applySearchFilters(filters)`: `books.filter` with the conjunction of the
three matches. -/
def applySearchFilters (toLowerCase : String → String) (books : List Book)
    (filters : Filters) : List Book :=
  books.filter fun book =>
    titleMatch toLowerCase filters book && authorMatch filters book && genreMatch filters book

/-! ## Rendering helpers -/

/-- A `<book-preview>` element with the four attributes `createBookPreview`
sets on it. -/
structure Preview where
  id : String
  author : String
  title : String
  image : String
  deriving DecidableEq, Repr

/-- `createBookPreview({ author, id, image, title })` (lines 118-126). The
`author` attribute is `authors[author]`, converted to a string by
`setAttribute`. -/
def createBookPreview (authors : Table) (book : Book) : Preview :=
  { id := book.id
    author := (authors.get book.author).ToString
    title := book.title
    image := book.image }

/-- `createBookPreviews(books, container)` (lines 108-115): one preview per
book, in order, appended after the children the container already has. -/
def createBookPreviews (authors : Table) (books : List Book) (container : List Preview) :
    List Preview :=
  container ++ books.map (createBookPreview authors)

/-- The `[data-list-button]` element: its `disabled` flag and the number its
final `innerHTML` shows in the `list__remaining` span. -/
structure Button where
  disabled : Bool
  remaining : Int
  deriving DecidableEq, Repr

/-- The `remainingBooks` constant of `updateShowMoreButton` (line 159). -/
def remainingBooks (BOOKS_PER_PAGE page : Nat) (matches_ : List Book) : Int :=
  (matches_.length : Int) - ((page * BOOKS_PER_PAGE : Nat) : Int)

/-- `updateShowMoreButton()` (lines 158-169), reading the module variables
`matches` and `page`. The `innerText` written on line 161 is replaced by the
`innerHTML` written on line 163. -/
def updateShowMoreButton (BOOKS_PER_PAGE page : Nat) (matches_ : List Book) : Button :=
  let r := remainingBooks BOOKS_PER_PAGE page matches_
  { disabled := decide (r ≤ 0)
    remaining := if r > 0 then r else 0 }

/-- What the `[data-list-active]` overlay shows for a book. -/
structure Detail where
  image : String
  title : String
  subtitle : String
  description : String
  deriving DecidableEq, Repr

/-- The overlay fields written on lines 262-268. `fullYear` stands for
`String(new Date(published).getFullYear())`. -/
def detailOf (authors : Table) (fullYear : String → String) (book : Book) : Detail :=
  { image := book.image
    title := book.title
    subtitle := (authors.get book.author).ToString ++ " (" ++ fullYear book.published ++ ")"
    description := book.description }

/-! ## Module state and listeners -/

/-- The module variables `page` and `matches` (lines 5-6) and the parts of the
document the listeners write: the children of `[data-list-items]`, the
`list__message_show` class, the "Show more" button and the detail overlay. -/
structure State where
  page : Nat
  matches_ : List Book
  listItems : List Preview
  listMessageShow : Bool
  button : Button
  active : Option Detail
  deriving DecidableEq, Repr

/-- Module initialisation: lines 5-6 and the initial rendering of lines
279-283. The "no results" message and the detail overlay start hidden, as the
listeners are the only code that shows them. -/
def init (authors : Table) (BOOKS_PER_PAGE : Nat) (books : List Book) : State :=
  { page := 1
    matches_ := books
    listItems := createBookPreviews authors (slice books 0 BOOKS_PER_PAGE) []
    listMessageShow := false
    button := updateShowMoreButton BOOKS_PER_PAGE 1 books
    active := none }

/-- The submit listener of the search form (lines 224-242). -/
def searchSubmit (toLowerCase : String → String) (authors : Table) (BOOKS_PER_PAGE : Nat)
    (books : List Book) (filters : Filters) (s : State) : State :=
  let matches_ := applySearchFilters toLowerCase books filters
  let page := 1
  { s with
    matches_ := matches_
    page := page
    listMessageShow := decide (matches_.length < 1)
    listItems := createBookPreviews authors (slice matches_ 0 BOOKS_PER_PAGE) []
    button := updateShowMoreButton BOOKS_PER_PAGE page matches_ }

/-- The click listener of the "Show more" button (lines 245-252). -/
def showMoreClick (authors : Table) (BOOKS_PER_PAGE : Nat) (s : State) : State :=
  let listItems := createBookPreviews authors
    (slice s.matches_ (s.page * BOOKS_PER_PAGE) ((s.page + 1) * BOOKS_PER_PAGE)) s.listItems
  let page := s.page + 1
  { s with
    listItems := listItems
    page := page
    button := updateShowMoreButton BOOKS_PER_PAGE page s.matches_ }

/-- Line 259: `books.find((book) => book.id === id)`; `none` is `undefined`. -/
def findBook (books : List Book) (id : String) : Option Book :=
  books.find? fun book => book.id == id

/-- Line 257: the first node of the event path whose `dataset.preview` is
truthy, that is, present and not the empty string. A node is given by its
`dataset.preview`, `none` when it has none. -/
def activePreview (path : List (Option String)) : Option String :=
  (path.find? fun node => match node with
    | some preview => preview != ""
    | none => false).join

/-- The click listener of `[data-list-items]` (lines 255-271). -/
def listItemsClick (authors : Table) (fullYear : String → String) (books : List Book)
    (path : List (Option String)) (s : State) : State :=
  match activePreview path with
  | some preview =>
    match findBook books preview with
    | some book => { s with active := some (detailOf authors fullYear book) }
    | none => s
  | none => s

/-- The user actions that reach the listeners above. -/
inductive Action where
  | submit (filters : Filters)
  | showMore
  | select (path : List (Option String))
  deriving DecidableEq, Repr

/-- The collaborators the listeners close over: the imports of `data.js` and
the two built-ins taken as parameters. -/
structure Env where
  toLowerCase : String → String
  fullYear : String → String
  books : List Book
  authors : Table
  BOOKS_PER_PAGE : Nat

/-- The initial state under an environment. -/
def Env.init (e : Env) : State := Scripts.init e.authors e.BOOKS_PER_PAGE e.books

/-- One listener run. -/
def step (e : Env) (s : State) : Action → State
  | .submit filters => searchSubmit e.toLowerCase e.authors e.BOOKS_PER_PAGE e.books filters s
  | .showMore => showMoreClick e.authors e.BOOKS_PER_PAGE s
  | .select path => listItemsClick e.authors e.fullYear e.books path s

/-- Running a sequence of actions, first action first. -/
def run (e : Env) (s : State) (actions : List Action) : State :=
  actions.foldl (step e) s

/-- The states reachable from the initial one. -/
inductive Reachable (e : Env) : State → Prop where
  | init : Reachable e e.init
  | step {s : State} (a : Action) : Reachable e s → Reachable e (step e s a)

/-! ## Concrete data used in examples -/

/-- Lowering of `A`-`Z` only, leaving every other character alone. -/
def asciiLowerCase (s : String) : String := ⟨s.data.map Char.toLower⟩

/-- A book with the given id and title and fixed other fields. The date is in
the middle of the year, so its local year is 2000 in every time zone. -/
def mkBook (id title : String) : Book :=
  { id := id, title := title, author := "a1", genres := ["g1"], image := "", description := "",
    published := "2000-06-15" }

/-- The three-title catalogue of the substring example. -/
def hobbitCatalog : List Book :=
  [mkBook "1" "The Hobbit", mkBook "2" "Hobbiton Tales", mkBook "3" "Odyssey"]

/-- The properties of `Object.prototype` (ECMA-262, Annex B included), each
with the text of its value as V8 prints it. -/
def objectPrototype : List (String × String) :=
  [("constructor", "function Object() \x7b [native code] \x7d"),
   ("__defineGetter__", "function __defineGetter__() \x7b [native code] \x7d"),
   ("__defineSetter__", "function __defineSetter__() \x7b [native code] \x7d"),
   ("hasOwnProperty", "function hasOwnProperty() \x7b [native code] \x7d"),
   ("__lookupGetter__", "function __lookupGetter__() \x7b [native code] \x7d"),
   ("__lookupSetter__", "function __lookupSetter__() \x7b [native code] \x7d"),
   ("isPrototypeOf", "function isPrototypeOf() \x7b [native code] \x7d"),
   ("propertyIsEnumerable", "function propertyIsEnumerable() \x7b [native code] \x7d"),
   ("toString", "function toString() \x7b [native code] \x7d"),
   ("valueOf", "function valueOf() \x7b [native code] \x7d"),
   ("__proto__", "[object Object]"),
   ("toLocaleString", "function toLocaleString() \x7b [native code] \x7d")]

/-- A one-author table, written as an object literal. -/
def authorsSample : Table :=
  { own := [("a1", "Ann Author")], inherited := objectPrototype }

/-- A book whose author id is neither a key of `authorsSample` nor the name of
a property it inherits. -/
def orphanBook : Book := { mkBook "9" "Orphan" with author := "a404" }

/-- The empty search form: no title, any author, any genre. -/
def blankFilters : Filters := { title := "", author := "any", genre := "any" }

/-- A small environment: three books, pages of two. Every book of the sample
data is published on 2000-06-15, so `fullYear` is "2000" on all of them. -/
def sampleEnv : Env :=
  { toLowerCase := asciiLowerCase
    fullYear := fun _ => "2000"
    books := hobbitCatalog
    authors := authorsSample
    BOOKS_PER_PAGE := 2 }

/-! ## Built-ins: basic facts -/

theorem includesChars_iff (s t : List Char) : includesChars s t = true ↔ t <:+: s := by
  induction s with
  | nil => cases t <;> simp [includesChars]
  | cons c cs ih =>
    rw [includesChars, Bool.or_eq_true, ih, List.isPrefixOf_iff_prefix, List.infix_cons_iff]

theorem trimChars_of_all_whiteSpace (cs : List Char) (h : ∀ c ∈ cs, isWhiteSpace c = true) :
    trimChars cs = [] := by
  have h0 : cs.dropWhile isWhiteSpace = [] := List.dropWhile_eq_nil_iff.mpr h
  simp [trimChars, h0]

theorem trim_of_all_whiteSpace (s : String) (h : ∀ c ∈ s.data, isWhiteSpace c = true) :
    trim s = "" := by
  unfold trim
  rw [trimChars_of_all_whiteSpace _ h]

/-- Membership in the result of the filter callback, field by field. -/
theorem filter_callback_iff (toLowerCase : String → String) (filters : Filters) (b : Book) :
    (titleMatch toLowerCase filters b && authorMatch filters b && genreMatch filters b) = true ↔
      (trim filters.title = "" ∨
          (toLowerCase filters.title).data <:+: (toLowerCase b.title).data) ∧
        (filters.author = "any" ∨ b.author = filters.author) ∧
        (filters.genre = "any" ∨ filters.genre ∈ b.genres) := by
  simp [titleMatch, authorMatch, genreMatch, includes, includesChars_iff, and_assoc]

theorem slice_eq_drop_take {α : Type} (xs : List α) (a b : Nat) :
    slice xs a b = (xs.take b).drop a := by
  simp only [slice]
  rw [List.drop_take]
  rcases Nat.le_total a xs.length with ha | ha
  · rw [Nat.min_eq_left ha]
    rcases Nat.le_total b xs.length with hb | hb
    · rw [Nat.min_eq_left hb]
    · rw [Nat.min_eq_right hb, List.take_of_length_le, List.take_of_length_le]
      · rw [List.length_drop]; omega
      · rw [List.length_drop]
  · rw [Nat.min_eq_right ha, List.drop_eq_nil_of_le (Nat.le_refl _), List.drop_eq_nil_of_le ha,
      List.take_nil, List.take_nil]

theorem slice_zero {α : Type} (xs : List α) (b : Nat) : slice xs 0 b = xs.take b := by
  rw [slice_eq_drop_take, List.drop_zero]

/-- Consecutive windows glue: the first `a` items followed by the window
`[a, b)` are the first `b` items. -/
theorem take_append_slice {α : Type} (xs : List α) (a b : Nat) (h : a ≤ b) :
    xs.take a ++ slice xs a b = xs.take b := by
  rw [slice_eq_drop_take]
  have e : xs.take a = (xs.take b).take a := by rw [List.take_take, Nat.min_eq_left h]
  rw [e, List.take_append_drop]

theorem length_slice {α : Type} (xs : List α) (a b : Nat) :
    (slice xs a b).length = min b xs.length - a := by
  rw [slice_eq_drop_take, List.length_drop, List.length_take]

theorem run_replicate_succ (e : Env) (s : State) (a : Action) (k : Nat) :
    run e s (List.replicate (k + 1) a) = step e (run e s (List.replicate k a)) a := by
  unfold run
  rw [List.replicate_succ', List.foldl_append]
  rfl

theorem remaining_eq_max (P page : Nat) (m : List Book) :
    (updateShowMoreButton P page m).remaining
      = max 0 ((m.length : Int) - ((page * P : Nat) : Int)) := by
  unfold updateShowMoreButton remainingBooks
  simp only
  split_ifs with h <;> omega

theorem lookup_of_mem_of_nodup (table : List (String × String)) (key name : String)
    (hmem : (key, name) ∈ table) (hnodup : (table.map Prod.fst).Nodup) :
    table.lookup key = some name := by
  induction table with
  | nil => cases hmem
  | cons kv rest ih =>
    obtain ⟨k, v⟩ := kv
    rw [List.map_cons, List.nodup_cons] at hnodup
    rw [List.lookup_cons]
    rcases List.mem_cons.mp hmem with h | h
    · cases h
      simp
    · have hne : key ≠ k := by
        rintro rfl
        exact hnodup.1 (List.mem_map.mpr ⟨(key, name), h, rfl⟩)
      have hb : (key == k) = false := by simpa using hne
      rw [hb]
      exact ih h hnodup.2

theorem lookup_of_not_mem_keys (table : List (String × String)) (key : String)
    (h : key ∉ table.map Prod.fst) : table.lookup key = none := by
  rw [List.lookup_eq_none_iff]
  intro p hp
  have hne : key ≠ p.1 := fun e => h (List.mem_map.mpr ⟨p, hp, e.symm⟩)
  simpa using hne

/-! ## Claims about `applySearchFilters` -/

/-- C1: a book is in the result of `applySearchFilters` iff it is in the
catalogue and the three predicates hold for it: the trimmed criteria title is
empty or the lower-cased book title contains the lower-cased criteria title as
a substring; the criteria author is "any" or equals the book's author; the
criteria genre is "any" or is an element of the book's genres. In particular
nothing outside the catalogue is in the result. -/
theorem C1_applySearchFilters_mem_iff (toLowerCase : String → String) (books : List Book)
    (filters : Filters) (b : Book) :
    b ∈ applySearchFilters toLowerCase books filters ↔
      b ∈ books ∧
        (trim filters.title = "" ∨
          (toLowerCase filters.title).data <:+: (toLowerCase b.title).data) ∧
        (filters.author = "any" ∨ b.author = filters.author) ∧
        (filters.genre = "any" ∨ filters.genre ∈ b.genres) := by
  unfold applySearchFilters
  rw [List.mem_filter, filter_callback_iff]

/-- C2: the result of `applySearchFilters` is a sublist of the catalogue (same
relative order, nothing added), and no book occurs in it more often than in the
catalogue. -/
theorem C2_applySearchFilters_sublist (toLowerCase : String → String) (books : List Book)
    (filters : Filters) :
    (applySearchFilters toLowerCase books filters).Sublist books ∧
      ∀ b : Book, (applySearchFilters toLowerCase books filters).count b ≤ books.count b := by
  have h : (applySearchFilters toLowerCase books filters).Sublist books := List.filter_sublist _
  exact ⟨h, fun b => h.count_le b⟩

/-- C6: with author "any", genre "any" and a title made of white space only
(the empty title included), `applySearchFilters` returns the whole catalogue,
in catalogue order. -/
theorem C6_blank_filters_return_catalog (toLowerCase : String → String) (books : List Book)
    (title : String) (h : ∀ c ∈ title.data, isWhiteSpace c = true) :
    applySearchFilters toLowerCase books { title := title, author := "any", genre := "any" }
      = books := by
  unfold applySearchFilters
  rw [List.filter_eq_self]
  intro b _
  simp [titleMatch, authorMatch, genreMatch, trim_of_all_whiteSpace title h]

/-- C6 at a concrete input: a title of two blanks and a tab, which no title of
the catalogue contains, still returns the whole catalogue. -/
theorem C6_blank_filters_return_catalog_witness :
    (∀ c ∈ ("  \t" : String).data, isWhiteSpace c = true) ∧
      (∀ b ∈ hobbitCatalog, includes (asciiLowerCase b.title) (asciiLowerCase "  \t") = false) ∧
      applySearchFilters asciiLowerCase hobbitCatalog
        { title := "  \t", author := "any", genre := "any" } = hobbitCatalog :=
  ⟨by decide, by decide, C6_blank_filters_return_catalog asciiLowerCase hobbitCatalog "  \t"
    (by decide)⟩

/-- C8: for a catalogue with titles "The Hobbit", "Hobbiton Tales", "Odyssey"
and criteria title "the", author "any", genre "any", the result is the first
book only, whenever `toLowerCase` lowers ASCII text the way JavaScript does. -/
theorem C8_the_matches_only_the_hobbit (toLowerCase : String → String)
    (hlow : ∀ s : String, (∀ c ∈ s.data, c.toNat < 128) → toLowerCase s = asciiLowerCase s)
    (b1 b2 b3 : Book) (h1 : b1.title = "The Hobbit") (h2 : b2.title = "Hobbiton Tales")
    (h3 : b3.title = "Odyssey") :
    applySearchFilters toLowerCase [b1, b2, b3] { title := "the", author := "any", genre := "any" }
      = [b1] := by
  have e0 : toLowerCase "the" = asciiLowerCase "the" := hlow _ (by decide)
  have e1 : toLowerCase "The Hobbit" = asciiLowerCase "The Hobbit" := hlow _ (by decide)
  have e2 : toLowerCase "Hobbiton Tales" = asciiLowerCase "Hobbiton Tales" := hlow _ (by decide)
  have e3 : toLowerCase "Odyssey" = asciiLowerCase "Odyssey" := hlow _ (by decide)
  have t : (trim "the" == "") = false := by decide
  have i1 : includes (asciiLowerCase "The Hobbit") (asciiLowerCase "the") = true := by decide
  have i2 : includes (asciiLowerCase "Hobbiton Tales") (asciiLowerCase "the") = false := by
    decide
  have i3 : includes (asciiLowerCase "Odyssey") (asciiLowerCase "the") = false := by decide
  simp [applySearchFilters, titleMatch, authorMatch, genreMatch, h1, h2, h3, e0, e1, e2, e3, t,
    i1, i2, i3]

/-- C8 at the concrete catalogue, with the ASCII lowering. -/
theorem C8_the_matches_only_the_hobbit_witness :
    (∀ s : String, (∀ c ∈ s.data, c.toNat < 128) → asciiLowerCase s = asciiLowerCase s) ∧
      hobbitCatalog.map Book.title = ["The Hobbit", "Hobbiton Tales", "Odyssey"] ∧
      applySearchFilters asciiLowerCase hobbitCatalog
        { title := "the", author := "any", genre := "any" } = [mkBook "1" "The Hobbit"] :=
  ⟨fun _ _ => rfl, by decide,
    C8_the_matches_only_the_hobbit asciiLowerCase (fun _ _ => rfl) (mkBook "1" "The Hobbit")
      (mkBook "2" "Hobbiton Tales") (mkBook "3" "Odyssey") rfl rfl rfl⟩

/-! ## Claims about paging -/

/-- C3: after a search submission with match set `m` followed by `k` "show
more" clicks, the module still holds `m`, `page` is `k + 1`, and the list shows
the previews of `m[0 .. (k+1) * BOOKS_PER_PAGE)`, each book once and in order;
one more click appends exactly the window
`m[(k+1) * BOOKS_PER_PAGE .. (k+2) * BOOKS_PER_PAGE)`; and when the displayed
remaining count is 0 the list shows the previews of the whole of `m`. -/
theorem C3_windows_concatenate (e : Env) (filters : Filters) (s0 : State) (k : Nat) :
    let m := applySearchFilters e.toLowerCase e.books filters
    let s := run e (step e s0 (.submit filters)) (List.replicate k .showMore)
    s.matches_ = m ∧ s.page = k + 1 ∧
      s.listItems = (m.take ((k + 1) * e.BOOKS_PER_PAGE)).map (createBookPreview e.authors) ∧
      (step e s .showMore).listItems = s.listItems ++
        (slice m ((k + 1) * e.BOOKS_PER_PAGE) ((k + 2) * e.BOOKS_PER_PAGE)).map
          (createBookPreview e.authors) ∧
      (s.button.remaining = 0 → s.listItems = m.map (createBookPreview e.authors)) := by
  intro m s
  have main : ∀ n : Nat,
      (run e (step e s0 (.submit filters)) (List.replicate n .showMore)).matches_ = m ∧
      (run e (step e s0 (.submit filters)) (List.replicate n .showMore)).page = n + 1 ∧
      (run e (step e s0 (.submit filters)) (List.replicate n .showMore)).listItems
        = (m.take ((n + 1) * e.BOOKS_PER_PAGE)).map (createBookPreview e.authors) ∧
      (run e (step e s0 (.submit filters)) (List.replicate n .showMore)).button
        = updateShowMoreButton e.BOOKS_PER_PAGE (n + 1) m := by
    intro n
    induction n with
    | zero =>
      refine ⟨rfl, rfl, ?_, rfl⟩
      show createBookPreviews e.authors (slice m 0 e.BOOKS_PER_PAGE) [] = _
      rw [slice_zero, createBookPreviews, List.nil_append, Nat.zero_add, Nat.one_mul]
    | succ n ih =>
      obtain ⟨hm, hp, hl, _⟩ := ih
      rw [run_replicate_succ]
      refine ⟨hm, ?_, ?_, ?_⟩
      · show _ + 1 = _
        rw [hp]
      · show createBookPreviews e.authors (slice _ _ _) _ = _
        rw [hm, hp, hl, createBookPreviews, ← List.map_append,
          take_append_slice _ _ _ (Nat.mul_le_mul_right _ (Nat.le_succ _))]
      · show updateShowMoreButton _ (_ + 1) _ = _
        rw [hm, hp]
  obtain ⟨hm, hp, hl, hb⟩ := main k
  refine ⟨hm, hp, hl, ?_, ?_⟩
  · show createBookPreviews e.authors (slice _ _ _) _ = _
    rw [hm, hp, createBookPreviews]
  · intro h0
    rw [hl, List.take_of_length_le]
    have h1 := remaining_eq_max e.BOOKS_PER_PAGE (k + 1) m
    rw [← hb] at h1
    change s.button.remaining = _ at h1
    rw [h0] at h1
    omega

/-- C4: the number shown on the "Show more" button is never negative; after a
search submission it is `max(0, |matches| - BOOKS_PER_PAGE)`, and after a "show
more" click taken at page `c` it is `max(0, |matches| - (c+1) * BOOKS_PER_PAGE)`. -/
theorem C4_remaining_count (e : Env) (filters : Filters) (s : State) (page : Nat)
    (m : List Book) :
    0 ≤ (updateShowMoreButton e.BOOKS_PER_PAGE page m).remaining ∧
      (step e s (.submit filters)).button.remaining
        = max 0 (((applySearchFilters e.toLowerCase e.books filters).length : Int)
            - (e.BOOKS_PER_PAGE : Int)) ∧
      (step e s .showMore).button.remaining
        = max 0 ((s.matches_.length : Int) - (((s.page + 1) * e.BOOKS_PER_PAGE : Nat) : Int)) := by
  refine ⟨?_, ?_, ?_⟩
  · rw [remaining_eq_max]
    exact le_max_left _ _
  · show (updateShowMoreButton _ 1 _).remaining = _
    rw [remaining_eq_max, Nat.one_mul]
  · show (updateShowMoreButton _ (s.page + 1) _).remaining = _
    rw [remaining_eq_max]

/-- C5: in every reachable state `page ≥ 1`; a "show more" click adds exactly 1
to `page`; a search submission sets `page` to 1; an item click leaves it
alone; so any action that lowers `page` is a search submission. -/
theorem C5_page_invariant (e : Env) :
    (∀ s, Reachable e s → 1 ≤ s.page) ∧
      (∀ s, (step e s .showMore).page = s.page + 1) ∧
      (∀ s filters, (step e s (.submit filters)).page = 1) ∧
      (∀ s path, (step e s (.select path)).page = s.page) ∧
      (∀ s a, (step e s a).page < s.page → ∃ filters, a = .submit filters) := by
  have hsel : ∀ s path, (step e s (.select path)).page = s.page := by
    intro s path
    show (listItemsClick _ _ _ _ _).page = _
    unfold listItemsClick
    split
    · split <;> rfl
    · rfl
  refine ⟨?_, fun _ => rfl, fun _ _ => rfl, hsel, ?_⟩
  · intro s hs
    induction hs with
    | init => exact Nat.le_refl 1
    | step a _ ih =>
      cases a with
      | submit filters => exact Nat.le_refl 1
      | showMore => exact Nat.le_succ_of_le ih
      | select path => rw [hsel]; exact ih
  · intro s a h
    cases a with
    | submit filters => exact ⟨filters, rfl⟩
    | showMore => exact absurd h (Nat.not_lt.mpr (Nat.le_succ _))
    | select path => rw [hsel] at h; exact absurd h (Nat.lt_irrefl _)

/-- C10: for a positive page size, `updateShowMoreButton` disables the button
iff the window the next "show more" click appends,
`matches[page * BOOKS_PER_PAGE .. (page+1) * BOOKS_PER_PAGE)`, is empty; that
window never has more than `BOOKS_PER_PAGE` items. -/
theorem C10_disabled_iff_next_window_empty (P page : Nat) (m : List Book) (hP : 0 < P) :
    ((updateShowMoreButton P page m).disabled = true ↔
        slice m (page * P) ((page + 1) * P) = []) ∧
      (slice m (page * P) ((page + 1) * P)).length ≤ P := by
  have hlen := length_slice m (page * P) ((page + 1) * P)
  have hmul : (page + 1) * P = page * P + P := Nat.succ_mul page P
  constructor
  · rw [← List.length_eq_zero, hlen]
    unfold updateShowMoreButton remainingBooks
    simp only [decide_eq_true_eq]
    omega
  · omega

/-- C3 at a concrete run: three matches, pages of two; after one "show more"
the remaining count is 0 and the list shows all three books once, in order. -/
theorem C3_windows_concatenate_witness :
    (run sampleEnv (step sampleEnv sampleEnv.init (.submit blankFilters))
        (List.replicate 1 .showMore)).button.remaining = 0 ∧
      (run sampleEnv (step sampleEnv sampleEnv.init (.submit blankFilters))
        (List.replicate 1 .showMore)).listItems
        = (applySearchFilters sampleEnv.toLowerCase sampleEnv.books blankFilters).map
            (createBookPreview sampleEnv.authors) ∧
      applySearchFilters sampleEnv.toLowerCase sampleEnv.books blankFilters = hobbitCatalog :=
  ⟨by decide,
    (C3_windows_concatenate sampleEnv blankFilters sampleEnv.init 1).2.2.2.2 (by decide),
    by decide⟩

/-- C5 at a concrete run: two "show more" clicks from the initial state reach
page 3. -/
theorem C5_page_invariant_witness :
    Reachable sampleEnv (step sampleEnv (step sampleEnv sampleEnv.init .showMore) .showMore) ∧
      (step sampleEnv (step sampleEnv sampleEnv.init .showMore) .showMore).page = 3 ∧
      1 ≤ (step sampleEnv (step sampleEnv sampleEnv.init .showMore) .showMore).page :=
  ⟨.step _ (.step _ .init), by decide,
    (C5_page_invariant sampleEnv).1 _ (.step _ (.step _ .init))⟩

/-- C10 at concrete inputs: three matches and pages of two; at page 1 the
button is enabled and the next window holds the third book, at page 2 the
button is disabled and the next window is empty. -/
theorem C10_disabled_iff_next_window_empty_witness :
    (0 < 2) ∧
      (updateShowMoreButton 2 1 hobbitCatalog).disabled = false ∧
      slice hobbitCatalog (1 * 2) ((1 + 1) * 2) = [mkBook "3" "Odyssey"] ∧
      (updateShowMoreButton 2 2 hobbitCatalog).disabled = true ∧
      ((updateShowMoreButton 2 2 hobbitCatalog).disabled = true ↔
        slice hobbitCatalog (2 * 2) ((2 + 1) * 2) = []) :=
  ⟨by decide, by decide, by decide, by decide,
    (C10_disabled_iff_next_window_empty 2 2 hobbitCatalog (by decide)).1⟩

/-! ## Claims about lookups -/

/-- C7: the item lookup `books.find` by id returns a book of the catalogue with
the requested id whenever the catalogue has one, and returns nothing iff no
book of the catalogue has that id. The click listener shows the book found in
the catalogue whatever the current `matches` and `page` are. -/
theorem C7_item_lookup (authors : Table) (fullYear : String → String) (books : List Book)
    (id : String) :
    ((∃ b ∈ books, b.id = id) → ∃ b ∈ books, findBook books id = some b ∧ b.id = id) ∧
      (findBook books id = none ↔ ∀ b ∈ books, b.id ≠ id) ∧
      (∀ (s : State) (path : List (Option String)) (b : Book),
        activePreview path = some id → findBook books id = some b →
          (listItemsClick authors fullYear books path s).active
            = some (detailOf authors fullYear b)) := by
  have hnone : findBook books id = none ↔ ∀ b ∈ books, b.id ≠ id := by
    unfold findBook
    rw [List.find?_eq_none]
    simp
  refine ⟨?_, hnone, ?_⟩
  · rintro ⟨b0, hb0, hid⟩
    cases hf : findBook books id with
    | none => exact absurd hid (hnone.mp hf b0 hb0)
    | some b =>
      refine ⟨b, List.mem_of_find?_eq_some hf, rfl, ?_⟩
      have := List.find?_some hf
      simpa using this
  · intro s path b hp hf
    unfold listItemsClick
    rw [hp]
    simp only [hf]

/-- C7 at a concrete input: after a search that filters "Odyssey" out of
`matches`, a click on its preview still finds it in the catalogue. -/
theorem C7_item_lookup_witness :
    mkBook "3" "Odyssey" ∉
        (step sampleEnv sampleEnv.init
          (.submit { title := "hob", author := "any", genre := "any" })).matches_ ∧
      ∃ b ∈ hobbitCatalog, findBook hobbitCatalog "3" = some b ∧ b.id = "3" :=
  ⟨by decide,
    (C7_item_lookup authorsSample sampleEnv.fullYear hobbitCatalog "3").1
      ⟨mkBook "3" "Odyssey", by decide, rfl⟩⟩

/-- C9, refuted as stated: for an author id that is neither a key of the
author table nor an inherited property name, the read `authors[id]` raises no
error. It evaluates to `undefined`, and both the preview and the detail overlay
are built from the text "undefined". -/
theorem C9_absent_author_yields_undefined :
    orphanBook.author ∉ authorsSample.own.map Prod.fst ∧
      orphanBook.author ∉ authorsSample.inherited.map Prod.fst ∧
      authorsSample.get orphanBook.author = JSValue.undefined ∧
      createBookPreview authorsSample orphanBook
        = { id := "9", author := "undefined", title := "Orphan", image := "" } ∧
      (detailOf authorsSample sampleEnv.fullYear orphanBook).subtitle = "undefined (2000)" := by
  decide

/-- C9, amended: reading the author table at an id returns the name stored
under that id when the id is a key of the table; when the id is neither a key
of the table nor the name of a property the table object inherits, no error is
raised, the read evaluates to `undefined`, and the preview's author attribute
and the overlay's subtitle are built from the text "undefined". -/
theorem C9_author_lookup (authors : Table) (fullYear : String → String) (book : Book) :
    (∀ name : String, (book.author, name) ∈ authors.own → (authors.own.map Prod.fst).Nodup →
        authors.get book.author = JSValue.string name ∧
        (createBookPreview authors book).author = name ∧
        (detailOf authors fullYear book).subtitle
          = name ++ " (" ++ fullYear book.published ++ ")") ∧
      (book.author ∉ authors.own.map Prod.fst →
        book.author ∉ authors.inherited.map Prod.fst →
        authors.get book.author = JSValue.undefined ∧
        (createBookPreview authors book).author = "undefined" ∧
        (detailOf authors fullYear book).subtitle
          = "undefined" ++ " (" ++ fullYear book.published ++ ")") := by
  constructor
  · intro name hmem hnodup
    have h : authors.get book.author = JSValue.string name := by
      unfold Table.get
      rw [lookup_of_mem_of_nodup authors.own _ _ hmem hnodup]
    simp only [createBookPreview, detailOf, h, JSValue.ToString, and_self]
  · intro hown hinh
    have h : authors.get book.author = JSValue.undefined := by
      unfold Table.get
      rw [lookup_of_not_mem_keys authors.own _ hown,
        lookup_of_not_mem_keys authors.inherited _ hinh]
    simp only [createBookPreview, detailOf, h, JSValue.ToString, and_self]

/-- C9 amended, at concrete inputs: a present id gives the stored name, an id
that is neither stored nor inherited gives the text "undefined". -/
theorem C9_author_lookup_witness :
    (mkBook "1" "The Hobbit").author = "a1" ∧ ("a1", "Ann Author") ∈ authorsSample.own ∧
      (authorsSample.own.map Prod.fst).Nodup ∧
      (createBookPreview authorsSample (mkBook "1" "The Hobbit")).author = "Ann Author" ∧
      orphanBook.author ∉ authorsSample.own.map Prod.fst ∧
      orphanBook.author ∉ authorsSample.inherited.map Prod.fst ∧
      (createBookPreview authorsSample orphanBook).author = "undefined" :=
  ⟨rfl, by decide, by decide,
    ((C9_author_lookup authorsSample sampleEnv.fullYear (mkBook "1" "The Hobbit")).1
      "Ann Author" (by decide) (by decide)).2.1,
    by decide, by decide,
    ((C9_author_lookup authorsSample sampleEnv.fullYear orphanBook).2 (by decide)
      (by decide)).2.1⟩

end Scripts
